import Mathlib

/-!
Verification of the t4_geom_convert Oracle core: the equivalence-inference
and point-classification loop (`src/Oracle/src/oracle.cc`, `compare_geoms`),
the result aggregator (`src/Oracle/src/Statistics.cc`) and the option
parsing of the tolerance delta (`src/Oracle/src/options_compare.cc`).

C++ `double` values are modelled as `ℚ`; machine `int`/`long` counters and
identifiers as `Nat`/`Int` (no overflow is reachable in the sampled ranges).
-/

namespace Oracle

/-- One failed sample, mirroring `struct failedPoint` as filled by
`Statistics::recordFailure` (Statistics.cc lines 65-74): coordinates, then
`pointID`, `cellID`, `materialID`, `dist`, `rank`, all stored as doubles. -/
structure FailedPoint where
  x : ℚ
  y : ℚ
  z : ℚ
  pointID : ℚ
  cellID : ℚ
  materialID : ℚ
  dist : ℚ
  rank : ℚ
deriving DecidableEq, Repr

/-- The aggregator state, mirroring the fields of class `Statistics`:
four outcome counters, the declared volume count, the set of covered
ranks (a `std::set<long>`, modelled as a duplicate-free list) and the
append-only list of failed points. -/
structure Statistics where
  nbSuccess : Nat
  nbFailure : Nat
  nbIgnored : Nat
  nbOutside : Nat
  nbT4Volumes : Int
  coveredRanks : List Int
  failures : List FailedPoint
deriving DecidableEq, Repr

/-- `Statistics::Statistics()` (Statistics.cc lines 21-28): all counters and
the volume count start at zero; the containers start empty. -/
def Statistics.init : Statistics :=
  ⟨0, 0, 0, 0, 0, [], []⟩

/-- `Statistics::incrementSuccess` (Statistics.cc lines 30-33). -/
def Statistics.incrementSuccess (s : Statistics) : Statistics :=
  { s with nbSuccess := s.nbSuccess + 1 }

/-- `Statistics::incrementFailure` (Statistics.cc lines 35-38). -/
def Statistics.incrementFailure (s : Statistics) : Statistics :=
  { s with nbFailure := s.nbFailure + 1 }

/-- `Statistics::incrementIgnore` (Statistics.cc lines 40-43). -/
def Statistics.incrementIgnore (s : Statistics) : Statistics :=
  { s with nbIgnored := s.nbIgnored + 1 }

/-- `Statistics::incrementOutside` (Statistics.cc lines 45-48). -/
def Statistics.incrementOutside (s : Statistics) : Statistics :=
  { s with nbOutside := s.nbOutside + 1 }

/-- `Statistics::getTotalPts` (Statistics.cc lines 50-53). -/
def Statistics.getTotalPts (s : Statistics) : Nat :=
  s.nbSuccess + s.nbFailure + s.nbIgnored + s.nbOutside

/-- `Statistics::recordCoveredRank` (Statistics.cc lines 55-58):
`std::set::insert`, a no-op when the rank is already present. -/
def Statistics.recordCoveredRank (s : Statistics) (rank : Int) : Statistics :=
  { s with coveredRanks :=
      if rank ∈ s.coveredRanks then s.coveredRanks else rank :: s.coveredRanks }

/-- `Statistics::setNbT4Volumes` (Statistics.cc lines 60-63). -/
def Statistics.setNbT4Volumes (s : Statistics) (n : Int) : Statistics :=
  { s with nbT4Volumes := n }

/-- `Statistics::recordFailure` (Statistics.cc lines 65-74): builds a
`failedPoint` from the position, the ids, the distance and the rank, and
`push_back`s it onto `failures`.  Note that it touches no counter. -/
def Statistics.recordFailure (s : Statistics) (position : ℚ × ℚ × ℚ)
    (rank : Int) (pointID cellID materialID : Int) (dist : ℚ) : Statistics :=
  { s with failures := s.failures ++
      [⟨position.1, position.2.1, position.2.2, (pointID : ℚ), (cellID : ℚ),
        (materialID : ℚ), dist, (rank : ℚ)⟩] }

/-- The running sum `averageDist += failedPoint.dist` computed by
`Statistics::report` (Statistics.cc lines 87-93) before the division. -/
def Statistics.reportSumDist (s : Statistics) : ℚ :=
  s.failures.foldl (fun a f => a + f.dist) 0

/-- The divisor `failures.size()` used by `averageDist /= failures.size()`
in `Statistics::report` (Statistics.cc line 93).  The division is performed
unconditionally; when the divisor is `0` the C++ double division yields NaN. -/
def Statistics.reportAverageDivisor (s : Statistics) : Nat :=
  s.failures.length

/-- `maxDist` as computed by `Statistics::report` (Statistics.cc lines
87-92): initialized to `0.` and folded with `std::max` over the failed
points; it is printed unconditionally. -/
def Statistics.reportMaxDist (s : Statistics) : ℚ :=
  s.failures.foldl (fun a f => max a f.dist) 0

/-- Out-of-bounds `operator[]` on a `std::vector` is undefined behaviour;
the model returns this default element for such reads. -/
def FailedPoint.oobRead : FailedPoint :=
  ⟨0, 0, 0, 0, 0, 0, 0, 0⟩

/-- The data rows stored by `Statistics::writeOutForVisu` (Statistics.cc
lines 133-135): the loop runs `iFail` from `0` to `nbFailure - 1` and stores
`failures[iFail]` — the bound is the failure counter, not the list length. -/
def Statistics.writeOutRows (s : Statistics) : List FailedPoint :=
  (List.range s.nbFailure).map (fun i => s.failures.getD i FailedPoint.oobRead)

/-- The name of the data table written by `Statistics::writeOutForVisu`
(Statistics.cc lines 118-119). -/
def datFileName (rawname : String) : String :=
  rawname ++ ".failedpoints.dat"

/-- The content written by `Statistics::writePointsFile` (Statistics.cc
lines 152-157): a one-line pointer naming the failed-points output. -/
def pointsFileContent (rawname : String) : String :=
  "name " ++ rawname ++ ".failedpoints.general\n"

/-- A material signature as reported by the source model: the pair of a
source material identifier and a source density value
(`mcnpGeom.getMaterialDensity()` in oracle.cc line 63). -/
abbrev MaterialKey := Nat × ℚ

/-- The equivalence map of `T4Geometry`: MaterialKey to target composition
name, modelled as an association list (newest binding first). -/
abbrev EquivMap := List (MaterialKey × String)

/-- Lookup of a key in the equivalence map. -/
def lookupKey : EquivMap → MaterialKey → Option String
  | [], _ => none
  | (k, v) :: m, key => if key = k then some v else lookupKey m key

/-- Modelled from the spec: `T4Geometry::materialInMap` is not under `src/`;
per the spec it tests whether the MaterialKey is already present in the
EquivalenceMap. -/
def materialInMap (g : EquivMap) (key : MaterialKey) : Bool :=
  (lookupKey g key).isSome

/-- Modelled from the spec: `T4Geometry::addEquivalence` is not under
`src/`; per the spec it inserts `key -> targetComposition` into the
EquivalenceMap. -/
def addEquivalence (g : EquivMap) (key : MaterialKey) (compo : String) : EquivMap :=
  (key, compo) :: g

/-- Modelled from the spec: `T4Geometry::weakEquivalence` is not under
`src/`; per the spec it holds when the stored composition for the key
equals the target composition observed at the point. -/
def weakEquivalence (g : EquivMap) (key : MaterialKey) (compo : String) : Bool :=
  lookupKey g key == some compo

/-- Modelled from the spec: `T4Geometry::isPointNearSurface` is not under
`src/`; per the spec a point is near a surface when its distance to the
nearest target-region surface is at most the tolerance delta
(boundary-inclusive comparison). -/
def isPointNearSurface (surfDist delta : ℚ) : Bool :=
  surfDist ≤ delta

/-- One sampled point as seen by the loop body of `compare_geoms`
(oracle.cc lines 49-79): the containing target volume `rank` returned by
`which_volume` (negative when no volume contains the point), the target
composition name for that rank, the source MaterialKey, and the distance
from the point to the nearest target-region surface. -/
structure PtracPoint where
  rank : Int
  compo : String
  key : MaterialKey
  surfDist : ℚ
deriving DecidableEq, Repr

/-- The per-point classification produced by the loop body of
`compare_geoms`; `outside` marks the fatal negative-rank condition. -/
inductive PointResult where
  | success
  | failure
  | ignored
  | outside
deriving DecidableEq, Repr

/-- The process exit status: `EXIT_FAILURE` on an outside point
(oracle.cc line 60), normal termination otherwise (`return 0` in main). -/
inductive ExitStatus where
  | normalExit
  | failureExit
deriving DecidableEq, Repr

/-- The classification chain of `compare_geoms` (oracle.cc lines 63-79):
if the key is not in the map, add the equivalence and succeed; else succeed
on weak equivalence; else ignore near a surface and fail away from one.
Returns the classification and the updated equivalence map. -/
def classifyPoint (delta : ℚ) (g : EquivMap) (p : PtracPoint) :
    PointResult × EquivMap :=
  if materialInMap g p.key = false then
    (.success, addEquivalence g p.key p.compo)
  else
    if weakEquivalence g p.key p.compo then (.success, g)
    else
      if isPointNearSurface p.surfDist delta then (.ignored, g)
      else (.failure, g)

/-- The observable outcome of a run of `compare_geoms` followed by `main`:
the process exit status, the final aggregator state, the final equivalence
map, and the per-point classification trace. -/
structure RunResult where
  exit : ExitStatus
  stats : Statistics
  equiv : EquivMap
  trace : List PointResult
deriving DecidableEq, Repr

/-- The counter update performed by the loop body of `compare_geoms` for a
classified point (oracle.cc lines 63-79): exactly one of
`incrementSuccess` / `incrementIgnore` / `incrementFailure`
(oracle.cc spells them `IncrementSuccess`, `IncrementIgnore`,
`IncrementFailure`).  No counter is touched for an outside point. -/
def recordOutcome (s : Statistics) : PointResult → Statistics
  | .success => s.incrementSuccess
  | .ignored => s.incrementIgnore
  | .failure => s.incrementFailure
  | .outside => s

/-- The sampling loop of `compare_geoms` (oracle.cc lines 49-81) over an
explicit list of sampled points.  A negative rank prints a diagnostic and
calls `exit(EXIT_FAILURE)` at once (lines 57-61): no counter is touched and
no further point is read.  Otherwise the point is classified and the
matching counter incremented (`recordOutcome`), and the loop continues. -/
def runLoop (delta : ℚ) (g : EquivMap) (s : Statistics) :
    List PtracPoint → RunResult
  | [] => ⟨.normalExit, s, g, []⟩
  | p :: ps =>
    if p.rank < 0 then ⟨.failureExit, s, g, [.outside]⟩
    else
      let c := classifyPoint delta g p
      let r := runLoop delta c.2 (recordOutcome s c.1) ps
      { r with trace := c.1 :: r.trace }

/-- The PTRAC file format option (options_compare.hh). -/
inductive PTRACFmt where
  | binaryFmt
  | asciiFmt
deriving DecidableEq, Repr

/-- One recognised command-line token of `OptionsCompare::get_opts`
(options_compare.cc lines 61-98), with the argument of `--npts` already
read by `int_of_string` and the argument of `--delta` already extracted by
`istringstream` (both consume the following `argv` slot). -/
inductive OptToken where
  | helpOpt
  | verboseOpt
  | guessOpt
  | binaryOpt
  | asciiOpt
  | nptsOpt (v : Int)
  | deltaOpt (v : ℚ)
  | fileOpt (s : String)
deriving DecidableEq, Repr

/-- The fields of class `OptionsCompare` set by the constructor and by
`get_opts`. -/
structure OptionsCompare where
  help : Bool
  verbosity : Nat
  delta : ℚ
  guessMaterialAssocs : Bool
  npoints : Option Int
  ptracFormat : PTRACFmt
  filenames : List String
deriving DecidableEq, Repr

/-- `OptionsCompare::OptionsCompare()` (options_compare.cc lines 41-47):
`help = false`, `verbosity = 0`, `delta = 1.0E-7`,
`guessMaterialAssocs = false`, PTRAC format defaults to binary. -/
def OptionsCompare.init : OptionsCompare :=
  ⟨false, 0, 1 / 10000000, false, none, .binaryFmt, []⟩

/-- The effect of one recognised token in the loop of
`OptionsCompare::get_opts` (options_compare.cc lines 61-98).  For
`--delta` (lines 81-90) the parsed value is stored and, when it is not
strictly positive, a warning is printed and delta is reset to `1.0e-7`.
For `--npts` (lines 71-80) a non-positive count is ignored. -/
def applyToken (o : OptionsCompare) : OptToken → OptionsCompare
  | .helpOpt => { o with help := true }
  | .verboseOpt => { o with verbosity := o.verbosity + 1 }
  | .guessOpt => { o with guessMaterialAssocs := true }
  | .nptsOpt v => if v ≤ 0 then o else { o with npoints := some v }
  | .deltaOpt v =>
      if v ≤ 0 then { o with delta := 1 / 10000000 } else { o with delta := v }
  | .binaryOpt => { o with ptracFormat := .binaryFmt }
  | .asciiOpt => { o with ptracFormat := .asciiFmt }
  | .fileOpt s => { o with filenames := o.filenames ++ [s] }

/-- The option loop of `get_opts`: `--help`/`-h` sets `help` and returns at
once (options_compare.cc lines 64-66); every other token is applied in
order. -/
def getOptsLoop (o : OptionsCompare) : List OptToken → OptionsCompare
  | [] => o
  | .helpOpt :: _ => { o with help := true }
  | t :: ts => getOptsLoop (applyToken o t) ts

/-- `OptionsCompare::get_opts` (options_compare.cc lines 53-111): when
`argc <= 3` (`fewArgs`) it sets `help` and returns with every field at its
constructor default; otherwise it runs the option loop from the
constructor state.  The trailing file-existence check exits the process on
an unreadable file and changes no field. -/
def get_opts (fewArgs : Bool) (ts : List OptToken) : OptionsCompare :=
  if fewArgs then { OptionsCompare.init with help := true }
  else getOptsLoop OptionsCompare.init ts

/-- One call on the public mutating interface of class `Statistics`
(Statistics.cc lines 30-74): the four counter increments, the failed-point
record, the covered-rank record and the volume-count setter. -/
inductive StatOp where
  | incSuccess
  | incFailure
  | incIgnore
  | incOutside
  | recFailure (position : ℚ × ℚ × ℚ) (rank : Int) (pointID cellID materialID : Int) (dist : ℚ)
  | recCovered (rank : Int)
  | setVolumes (n : Int)
deriving DecidableEq, Repr

/-- Dispatch of one `StatOp` to the corresponding `Statistics` method. -/
def applyStatOp (s : Statistics) : StatOp → Statistics
  | .incSuccess => s.incrementSuccess
  | .incFailure => s.incrementFailure
  | .incIgnore => s.incrementIgnore
  | .incOutside => s.incrementOutside
  | .recFailure position rank pointID cellID materialID dist =>
      s.recordFailure position rank pointID cellID materialID dist
  | .recCovered rank => s.recordCoveredRank rank
  | .setVolumes n => s.setNbT4Volumes n

/-- A run over the aggregator: the calls applied in order. -/
def applyStatOps (s : Statistics) (ops : List StatOp) : Statistics :=
  ops.foldl applyStatOp s

/-! ## Theorems -/

/-- C3 (counterexample): `Statistics::recordFailure` increments none of the
four outcome counters — called on the initial state it appends one failed
point while every counter stays `0`, so it does not "increment exactly one
of the four outcome counters" as claimed. -/
theorem C3_counterexample :
    (Statistics.init.recordFailure (1, 2, 3) 4 5 6 7 8).nbSuccess = 0 ∧
    (Statistics.init.recordFailure (1, 2, 3) 4 5 6 7 8).nbFailure = 0 ∧
    (Statistics.init.recordFailure (1, 2, 3) 4 5 6 7 8).nbIgnored = 0 ∧
    (Statistics.init.recordFailure (1, 2, 3) 4 5 6 7 8).nbOutside = 0 ∧
    (Statistics.init.recordFailure (1, 2, 3) 4 5 6 7 8).failures.length = 1 :=
  ⟨rfl, rfl, rfl, rfl, rfl⟩

/-- C3 (amended): each of the four counter increments `incrementSuccess`,
`incrementFailure`, `incrementIgnore`, `incrementOutside` increments
exactly its own counter, leaving the other three counters and the failure
list unchanged; `recordFailure` appends exactly one FailedPoint entry and
leaves all four counters unchanged. -/
theorem C3_record_ops_frame (s : Statistics) (position : ℚ × ℚ × ℚ)
    (rank : Int) (pointID cellID materialID : Int) (dist : ℚ) :
    (s.incrementSuccess.nbSuccess = s.nbSuccess + 1 ∧
      s.incrementSuccess.nbFailure = s.nbFailure ∧
      s.incrementSuccess.nbIgnored = s.nbIgnored ∧
      s.incrementSuccess.nbOutside = s.nbOutside ∧
      s.incrementSuccess.failures = s.failures) ∧
    (s.incrementFailure.nbFailure = s.nbFailure + 1 ∧
      s.incrementFailure.nbSuccess = s.nbSuccess ∧
      s.incrementFailure.nbIgnored = s.nbIgnored ∧
      s.incrementFailure.nbOutside = s.nbOutside ∧
      s.incrementFailure.failures = s.failures) ∧
    (s.incrementIgnore.nbIgnored = s.nbIgnored + 1 ∧
      s.incrementIgnore.nbSuccess = s.nbSuccess ∧
      s.incrementIgnore.nbFailure = s.nbFailure ∧
      s.incrementIgnore.nbOutside = s.nbOutside ∧
      s.incrementIgnore.failures = s.failures) ∧
    (s.incrementOutside.nbOutside = s.nbOutside + 1 ∧
      s.incrementOutside.nbSuccess = s.nbSuccess ∧
      s.incrementOutside.nbFailure = s.nbFailure ∧
      s.incrementOutside.nbIgnored = s.nbIgnored ∧
      s.incrementOutside.failures = s.failures) ∧
    ((s.recordFailure position rank pointID cellID materialID dist).nbSuccess = s.nbSuccess ∧
      (s.recordFailure position rank pointID cellID materialID dist).nbFailure = s.nbFailure ∧
      (s.recordFailure position rank pointID cellID materialID dist).nbIgnored = s.nbIgnored ∧
      (s.recordFailure position rank pointID cellID materialID dist).nbOutside = s.nbOutside ∧
      (s.recordFailure position rank pointID cellID materialID dist).failures =
        s.failures ++
          [⟨position.1, position.2.1, position.2.2, (pointID : ℚ), (cellID : ℚ),
            (materialID : ℚ), dist, (rank : ℚ)⟩]) :=
  ⟨⟨rfl, rfl, rfl, rfl, rfl⟩, ⟨rfl, rfl, rfl, rfl, rfl⟩, ⟨rfl, rfl, rfl, rfl, rfl⟩,
    ⟨rfl, rfl, rfl, rfl, rfl⟩, ⟨rfl, rfl, rfl, rfl, rfl⟩⟩

/-- C4: on a run with an empty failure list, `Statistics::report` still
divides the distance sum by `failures.size()` — the divisor is `0`, so the
C++ double division yields NaN for the printed average — and prints `0`
(the fold start value) as the maximum failure distance, instead of
reporting both as undefined. -/
theorem C4_empty_failures_report (s : Statistics) (h : s.failures = []) :
    s.reportAverageDivisor = 0 ∧ s.reportMaxDist = 0 := by
  simp [Statistics.reportAverageDivisor, Statistics.reportMaxDist, h]

/-- C4 witness: the initial state has no failures, a zero division divisor
and a printed maximum of `0`. -/
theorem C4_empty_failures_report_witness :
    Statistics.init.failures = [] ∧
    Statistics.init.reportAverageDivisor = 0 ∧ Statistics.init.reportMaxDist = 0 :=
  ⟨rfl, C4_empty_failures_report Statistics.init rfl⟩

/-- Each aggregator call leaves every counter at least as large as before. -/
theorem applyStatOp_counters_mono (s : Statistics) (op : StatOp) :
    s.nbSuccess ≤ (applyStatOp s op).nbSuccess ∧
    s.nbFailure ≤ (applyStatOp s op).nbFailure ∧
    s.nbIgnored ≤ (applyStatOp s op).nbIgnored ∧
    s.nbOutside ≤ (applyStatOp s op).nbOutside := by
  cases op <;>
    simp [applyStatOp, Statistics.incrementSuccess, Statistics.incrementFailure,
      Statistics.incrementIgnore, Statistics.incrementOutside,
      Statistics.recordFailure, Statistics.recordCoveredRank,
      Statistics.setNbT4Volumes]

/-- C7: after any sequence of aggregator calls, `getTotalPts` is the sum of
the four outcome counters, and each of the four counters is at least its
value before the sequence (each counter is monotonically non-decreasing
over the run). -/
theorem C7_counter_consistency (s : Statistics) (ops : List StatOp) :
    (applyStatOps s ops).getTotalPts =
      (applyStatOps s ops).nbSuccess + (applyStatOps s ops).nbFailure +
        (applyStatOps s ops).nbIgnored + (applyStatOps s ops).nbOutside ∧
    s.nbSuccess ≤ (applyStatOps s ops).nbSuccess ∧
    s.nbFailure ≤ (applyStatOps s ops).nbFailure ∧
    s.nbIgnored ≤ (applyStatOps s ops).nbIgnored ∧
    s.nbOutside ≤ (applyStatOps s ops).nbOutside := by
  induction ops generalizing s with
  | nil => exact ⟨rfl, le_refl _, le_refl _, le_refl _, le_refl _⟩
  | cons op ops ih =>
    have hstep := applyStatOp_counters_mono s op
    have htail := ih (applyStatOp s op)
    refine ⟨htail.1, ?_, ?_, ?_, ?_⟩
    · exact le_trans hstep.1 htail.2.1
    · exact le_trans hstep.2.1 htail.2.2.1
    · exact le_trans hstep.2.2.1 htail.2.2.2.1
    · exact le_trans hstep.2.2.2 htail.2.2.2.2

/-- Unfolding of `runLoop` on an outside head point: the loop stops at once
with `EXIT_FAILURE`, the aggregator and the map untouched. -/
theorem runLoop_cons_neg (delta : ℚ) (g : EquivMap) (s : Statistics)
    (p : PtracPoint) (ps : List PtracPoint) (h : p.rank < 0) :
    runLoop delta g s (p :: ps) = ⟨.failureExit, s, g, [.outside]⟩ := by
  unfold runLoop
  rw [if_pos h]

/-- Unfolding of `runLoop` on an in-geometry head point. -/
theorem runLoop_cons_pos (delta : ℚ) (g : EquivMap) (s : Statistics)
    (p : PtracPoint) (ps : List PtracPoint) (h : ¬p.rank < 0) :
    runLoop delta g s (p :: ps) =
      { runLoop delta (classifyPoint delta g p).2
          (recordOutcome s (classifyPoint delta g p).1) ps with
        trace := (classifyPoint delta g p).1 ::
          (runLoop delta (classifyPoint delta g p).2
            (recordOutcome s (classifyPoint delta g p).1) ps).trace } := by
  conv_lhs => unfold runLoop
  rw [if_neg h]

/-- The classification never deletes or overwrites an existing entry of
the equivalence map: an insertion happens only when the key is absent. -/
theorem classifyPoint_preserves_lookup (delta : ℚ) (g : EquivMap)
    (p : PtracPoint) (k : MaterialKey) (v : String)
    (h : lookupKey g k = some v) :
    lookupKey (classifyPoint delta g p).2 k = some v := by
  unfold classifyPoint
  by_cases hin : materialInMap g p.key = false
  · rw [if_pos hin]
    show lookupKey (addEquivalence g p.key p.compo) k = some v
    unfold addEquivalence
    simp only [lookupKey]
    by_cases hk : k = p.key
    · exfalso
      unfold materialInMap at hin
      rw [← hk, h] at hin
      simp at hin
    · rw [if_neg hk]
      exact h
  · rw [if_neg hin]
    by_cases hw : weakEquivalence g p.key p.compo = true
    · rw [if_pos hw]
      exact h
    · rw [if_neg hw]
      by_cases hn : isPointNearSurface p.surfDist delta = true
      · rw [if_pos hn]
        exact h
      · rw [if_neg hn]
        exact h

/-- C1: the classification chain of `compare_geoms`: an absent key is
inserted with the observed target composition and classified Success; a
present key with matching stored composition is Success; a mismatch within
the surface tolerance is Ignored; a mismatch beyond it is Failure. -/
theorem C1_classify_cases (delta : ℚ) (g : EquivMap) (p : PtracPoint) :
    (materialInMap g p.key = false →
      (classifyPoint delta g p).1 = .success ∧
        lookupKey (classifyPoint delta g p).2 p.key = some p.compo) ∧
    (materialInMap g p.key = true → lookupKey g p.key = some p.compo →
      (classifyPoint delta g p).1 = .success) ∧
    (materialInMap g p.key = true → lookupKey g p.key ≠ some p.compo →
      p.surfDist ≤ delta → (classifyPoint delta g p).1 = .ignored) ∧
    (materialInMap g p.key = true → lookupKey g p.key ≠ some p.compo →
      ¬p.surfDist ≤ delta → (classifyPoint delta g p).1 = .failure) := by
  refine ⟨?_, ?_, ?_, ?_⟩
  · intro hin
    constructor
    · simp [classifyPoint, hin]
    · simp only [classifyPoint, hin, if_pos]
      show lookupKey (addEquivalence g p.key p.compo) p.key = some p.compo
      simp [addEquivalence, lookupKey]
  · intro hin hlook
    have hw : weakEquivalence g p.key p.compo = true := by
      simp [weakEquivalence, hlook]
    simp [classifyPoint, hin, hw]
  · intro hin hlook hle
    have hw : weakEquivalence g p.key p.compo = false := by
      simp [weakEquivalence]
      exact hlook
    have hn : isPointNearSurface p.surfDist delta = true := by
      simp [isPointNearSurface, hle]
    simp [classifyPoint, hin, hw, hn]
  · intro hin hlook hgt
    have hw : weakEquivalence g p.key p.compo = false := by
      simp [weakEquivalence]
      exact hlook
    have hn : isPointNearSurface p.surfDist delta = false := by
      simp [isPointNearSurface, hgt]
    simp [classifyPoint, hin, hw, hn]

/-- C1 witness: the first sighting of key `(1, 1)` with composition `UO2`
on an empty map is Success and establishes the mapping. -/
theorem C1_classify_cases_witness :
    materialInMap [] ((1 : Nat), (1 : ℚ)) = false ∧
    (classifyPoint 1 [] ⟨0, "UO2", (1, 1), 0⟩).1 = .success ∧
    lookupKey (classifyPoint 1 [] ⟨0, "UO2", (1, 1), 0⟩).2 (1, 1) = some "UO2" := by
  have h := (C1_classify_cases 1 [] ⟨0, "UO2", (1, 1), 0⟩).1 rfl
  exact ⟨rfl, h.1, h.2⟩

/-- C2 (counterexample): a run whose first point is outside the target
geometry (negative rank) exits with the failure status, but the outside
counter of the final aggregator state is `0` — `compare_geoms` calls
`exit(EXIT_FAILURE)` without ever calling `incrementOutside`, so the claim
that "the outside counter is incremented" is false. -/
theorem C2_counterexample :
    (runLoop 1 [] Statistics.init
        [⟨-1, "VOID", (1, 1), 0⟩, ⟨0, "UO2", (1, 1), 0⟩]).exit = .failureExit ∧
    (runLoop 1 [] Statistics.init
        [⟨-1, "VOID", (1, 1), 0⟩, ⟨0, "UO2", (1, 1), 0⟩]).stats.nbOutside = 0 ∧
    (runLoop 1 [] Statistics.init
        [⟨-1, "VOID", (1, 1), 0⟩, ⟨0, "UO2", (1, 1), 0⟩]).stats = Statistics.init :=
  ⟨rfl, rfl, rfl⟩

/-- C2 (amended): whenever the target-geometry lookup reports no containing
region (negative rank), the run terminates immediately with a failure exit
status before processing any further points; the aggregator state —
including the outside counter — is left exactly as it was (the Outside
outcome is not recorded). -/
theorem C2_outside_aborts (delta : ℚ) (g : EquivMap) (s : Statistics)
    (p : PtracPoint) (ps : List PtracPoint) (h : p.rank < 0) :
    runLoop delta g s (p :: ps) = ⟨.failureExit, s, g, [.outside]⟩ :=
  runLoop_cons_neg delta g s p ps h

/-- C2 witness: a single outside point aborts the run with the aggregator
untouched. -/
theorem C2_outside_aborts_witness :
    ((⟨-1, "VOID", (1, 1), 0⟩ : PtracPoint).rank < 0) ∧
    runLoop 1 [] Statistics.init [⟨-1, "VOID", (1, 1), 0⟩] =
      ⟨.failureExit, Statistics.init, [], [.outside]⟩ :=
  ⟨by decide,
    C2_outside_aborts 1 [] Statistics.init ⟨-1, "VOID", (1, 1), 0⟩ [] (by decide)⟩

/-- C6: the equivalence map is write-once during a run: any binding present
in the map survives any further sampled points with the same composition
identifier — it is never removed and never overwritten. -/
theorem C6_map_write_once (delta : ℚ) (g : EquivMap) (s : Statistics)
    (ps : List PtracPoint) (k : MaterialKey) (v : String)
    (h : lookupKey g k = some v) :
    lookupKey (runLoop delta g s ps).equiv k = some v := by
  induction ps generalizing g s with
  | nil => exact h
  | cons p ps ih =>
    by_cases hr : p.rank < 0
    · rw [runLoop_cons_neg delta g s p ps hr]
      exact h
    · rw [runLoop_cons_pos delta g s p ps hr]
      exact ih _ _ (classifyPoint_preserves_lookup delta g p k v h)

/-- C6 witness: an established mapping `(1, 1) -> UO2` survives a later
mismatching point with the same key. -/
theorem C6_map_write_once_witness :
    lookupKey [(((1 : Nat), (1 : ℚ)), "UO2")] (1, 1) = some "UO2" ∧
    lookupKey (runLoop 1 [(((1 : Nat), (1 : ℚ)), "UO2")] Statistics.init
        [⟨0, "H2O", (1, 1), 5⟩]).equiv (1, 1) = some "UO2" :=
  ⟨by decide,
    C6_map_write_once 1 [(((1 : Nat), (1 : ℚ)), "UO2")] Statistics.init
      [⟨0, "H2O", (1, 1), 5⟩] (1, 1) "UO2" (by decide)⟩

/-- C8: a mismatching point whose surface distance is exactly the
tolerance delta is classified Ignored, not Failure (the near-surface test
is boundary-inclusive). -/
theorem C8_boundary_inclusive (delta : ℚ) (g : EquivMap) (p : PtracPoint)
    (hin : materialInMap g p.key = true)
    (hmm : weakEquivalence g p.key p.compo = false)
    (hd : p.surfDist = delta) :
    (classifyPoint delta g p).1 = .ignored := by
  have hn : isPointNearSurface p.surfDist delta = true := by
    simp [isPointNearSurface, hd]
  simp [classifyPoint, hin, hmm, hn]

/-- C8 witness: key `(1, 1)` mapped to `UO2`, observed composition `H2O`,
surface distance exactly `1.0e-7` with tolerance `1.0e-7`: Ignored. -/
theorem C8_boundary_inclusive_witness :
    materialInMap [(((1 : Nat), (1 : ℚ)), "UO2")] (1, 1) = true ∧
    weakEquivalence [(((1 : Nat), (1 : ℚ)), "UO2")] (1, 1) "H2O" = false ∧
    (classifyPoint (1 / 10000000) [(((1 : Nat), (1 : ℚ)), "UO2")]
        ⟨3, "H2O", (1, 1), 1 / 10000000⟩).1 = .ignored :=
  ⟨by decide, by decide,
    C8_boundary_inclusive (1 / 10000000) [(((1 : Nat), (1 : ℚ)), "UO2")]
      ⟨3, "H2O", (1, 1), 1 / 10000000⟩ (by decide) (by decide) rfl⟩

/-- C9: the engine is deterministic: two runs over the same fixed point
sequence, each starting from a fresh empty equivalence map and a fresh
aggregator, produce identical per-point classification traces and
identical final counters. -/
theorem C9_deterministic (delta : ℚ) (ps : List PtracPoint)
    (g1 g2 : EquivMap) (s1 s2 : Statistics)
    (hg1 : g1 = []) (hg2 : g2 = []) (hs1 : s1 = Statistics.init)
    (hs2 : s2 = Statistics.init) :
    (runLoop delta g1 s1 ps).trace = (runLoop delta g2 s2 ps).trace ∧
    (runLoop delta g1 s1 ps).stats = (runLoop delta g2 s2 ps).stats := by
  subst hg1
  subst hg2
  subst hs1
  subst hs2
  exact ⟨rfl, rfl⟩

/-- C9 witness: two fresh runs over a concrete two-point sequence agree. -/
theorem C9_deterministic_witness :
    (runLoop 1 [] Statistics.init
        [⟨0, "UO2", (1, 1), 0⟩, ⟨2, "H2O", (1, 1), 5⟩]).trace =
      (runLoop 1 [] Statistics.init
        [⟨0, "UO2", (1, 1), 0⟩, ⟨2, "H2O", (1, 1), 5⟩]).trace ∧
    (runLoop 1 [] Statistics.init
        [⟨0, "UO2", (1, 1), 0⟩, ⟨2, "H2O", (1, 1), 5⟩]).stats =
      (runLoop 1 [] Statistics.init
        [⟨0, "UO2", (1, 1), 0⟩, ⟨2, "H2O", (1, 1), 5⟩]).stats :=
  C9_deterministic 1 [⟨0, "UO2", (1, 1), 0⟩, ⟨2, "H2O", (1, 1), 5⟩]
    [] [] Statistics.init Statistics.init rfl rfl rfl rfl

/-- Reading every index below the length of a list gives back the list. -/
theorem range_map_getD {α : Type} (l : List α) (d : α) :
    (List.range l.length).map (fun i => l.getD i d) = l := by
  induction l with
  | nil => rfl
  | cons a l ih =>
    rw [List.length_cons, List.range_succ_eq_map, List.map_cons, List.map_map]
    have hcomp : ((fun i => (a :: l).getD i d) ∘ Nat.succ) = fun i => l.getD i d := rfl
    rw [hcomp, ih]
    rfl

/-- C5 (counterexample): the export loop of `writeOutForVisu` is bounded by
the failure counter `nbFailure`, not by the failure list: a state holding
two recorded FailedPoint entries but a zero failure counter (reachable,
since `recordFailure` touches no counter) exports zero data rows, not two. -/
theorem C5_counterexample :
    ((Statistics.init.recordFailure (1, 2, 3) 4 5 6 7 8).recordFailure
        (9, 10, 11) 12 13 14 15 16).failures.length = 2 ∧
    (((Statistics.init.recordFailure (1, 2, 3) 4 5 6 7 8).recordFailure
        (9, 10, 11) 12 13 14 15 16).writeOutRows).length = 0 :=
  ⟨rfl, rfl⟩

/-- C5 (amended): `writeOutForVisu` writes exactly `nbFailure` data rows,
indexing the failure list; when the failure counter equals the length of
the failure list this is exactly one row per FailedPoint entry, in order;
the companion pointer file names the failed-points output of the table. -/
theorem C5_writeout_rows (s : Statistics) (rawname : String) :
    (s.writeOutRows).length = s.nbFailure ∧
    (s.nbFailure = s.failures.length → s.writeOutRows = s.failures) ∧
    pointsFileContent rawname = "name " ++ rawname ++ ".failedpoints.general\n" := by
  refine ⟨?_, ?_, rfl⟩
  · simp [Statistics.writeOutRows]
  · intro h
    unfold Statistics.writeOutRows
    rw [h]
    exact range_map_getD s.failures FailedPoint.oobRead

/-- C5 witness: a state with two failures recorded through both the
counter and the list exports exactly those two rows. -/
theorem C5_writeout_rows_witness :
    ((Statistics.init.incrementFailure.recordFailure (1, 2, 3) 4 5 6 7 8).incrementFailure.recordFailure
          (9, 10, 11) 12 13 14 15 16).nbFailure =
      ((Statistics.init.incrementFailure.recordFailure (1, 2, 3) 4 5 6 7 8).incrementFailure.recordFailure
          (9, 10, 11) 12 13 14 15 16).failures.length ∧
    ((Statistics.init.incrementFailure.recordFailure (1, 2, 3) 4 5 6 7 8).incrementFailure.recordFailure
          (9, 10, 11) 12 13 14 15 16).writeOutRows =
      ((Statistics.init.incrementFailure.recordFailure (1, 2, 3) 4 5 6 7 8).incrementFailure.recordFailure
          (9, 10, 11) 12 13 14 15 16).failures :=
  ⟨rfl,
    (C5_writeout_rows
        ((Statistics.init.incrementFailure.recordFailure (1, 2, 3) 4 5 6 7 8).incrementFailure.recordFailure
          (9, 10, 11) 12 13 14 15 16) "outputViz").2.1 rfl⟩

/-- Every recognised option token preserves strict positivity of delta. -/
theorem applyToken_delta_pos (o : OptionsCompare) (t : OptToken)
    (h : 0 < o.delta) : 0 < (applyToken o t).delta := by
  cases t with
  | helpOpt => exact h
  | verboseOpt => exact h
  | guessOpt => exact h
  | binaryOpt => exact h
  | asciiOpt => exact h
  | fileOpt s => exact h
  | nptsOpt v =>
    simp only [applyToken]
    split <;> exact h
  | deltaOpt v =>
    simp only [applyToken]
    split
    · show (0 : ℚ) < 1 / 10000000
      norm_num
    · next hv => exact not_le.mp hv

/-- The option loop preserves strict positivity of delta. -/
theorem getOptsLoop_delta_pos (o : OptionsCompare) (ts : List OptToken)
    (h : 0 < o.delta) : 0 < (getOptsLoop o ts).delta := by
  induction ts generalizing o with
  | nil => exact h
  | cons t ts ih =>
    cases t with
    | helpOpt => exact h
    | verboseOpt => exact ih _ (applyToken_delta_pos o _ h)
    | guessOpt => exact ih _ (applyToken_delta_pos o _ h)
    | binaryOpt => exact ih _ (applyToken_delta_pos o _ h)
    | asciiOpt => exact ih _ (applyToken_delta_pos o _ h)
    | fileOpt s => exact ih _ (applyToken_delta_pos o _ h)
    | nptsOpt v => exact ih _ (applyToken_delta_pos o _ h)
    | deltaOpt v => exact ih _ (applyToken_delta_pos o _ h)

/-- C10: after `get_opts` returns, delta is strictly positive, on every
command line; and a `--delta` argument that is not strictly positive is
rejected: the stored delta is reset to the default `1.0e-7` instead of the
supplied value. -/
theorem C10_delta_positive (fewArgs : Bool) (ts : List OptToken)
    (o : OptionsCompare) (v : ℚ) (hv : v ≤ 0) :
    0 < (get_opts fewArgs ts).delta ∧
    (applyToken o (.deltaOpt v)).delta = 1 / 10000000 := by
  constructor
  · unfold get_opts
    split
    · show (0 : ℚ) < 1 / 10000000
      norm_num
    · refine getOptsLoop_delta_pos OptionsCompare.init ts ?_
      show (0 : ℚ) < 1 / 10000000
      norm_num
  · simp only [applyToken]
    rw [if_pos hv]

/-- C10 witness: the command line `--delta -1` yields the default delta. -/
theorem C10_delta_positive_witness :
    ((-1 : ℚ) ≤ 0) ∧
    0 < (get_opts false [.deltaOpt (-1)]).delta ∧
    (applyToken OptionsCompare.init (.deltaOpt (-1))).delta = 1 / 10000000 :=
  ⟨by norm_num,
    C10_delta_positive false [.deltaOpt (-1)] OptionsCompare.init (-1) (by norm_num)⟩

end Oracle
